import Mathlib

/-
Verification of the curve-editing core of freecad.trails.

The definitions below are a shallow embedding of the Python sources:
  * curve_tracker.py (CurveTracker: _generate_spiral, _generate_arc, update,
    button_event, mouse_event, _validate_curve, end_drag)
  * trackers2/core/geometry.py (Geometry.set_coordinates)
  * geomatics/surface/EditSurface.py (SwapEdge.SwapEdge)
Coordinates are modelled over the rationals.  The external geometry kernel
(arc.get_parameters, spiral.solve_unk_length, support.get_bearing) and the
FreeCAD Vector distance function are external collaborators and appear as
function parameters.
-/

/-- Model of a FreeCAD Vector as used by the tracker code.  NodeTracker.get
returns point objects that additionally carry an is_end_node attribute, which
_generate_spiral reads; vectors produced by arithmetic do not keep the flag. -/
structure PVec where
  x : ℚ
  y : ℚ
  z : ℚ
  is_end_node : Bool
deriving DecidableEq, Inhabited

/-- Vector.sub of FreeCAD (componentwise difference). -/
def vsub (a b : PVec) : PVec :=
  ⟨a.x - b.x, a.y - b.y, a.z - b.z, false⟩

/-- Vector.add of FreeCAD (componentwise sum). -/
def vadd (a b : PVec) : PVec :=
  ⟨a.x + b.x, a.y + b.y, a.z + b.z, false⟩

/-- Vector.multiply of FreeCAD (scale by a scalar). -/
def vmul (a : PVec) (s : ℚ) : PVec :=
  ⟨a.x * s, a.y * s, a.z * s, false⟩

/-- Value of the StartRadius / EndRadius entry of a curve dictionary: the key
may be absent (or hold None), hold a finite number, or hold math.inf. -/
inductive RadiusVal where
  | absent
  | num (r : ℚ)
  | inf
deriving DecidableEq, Inhabited

/-- The test on line 281 of curve_tracker.py:
not self.curve.get(StartRadius) or self.curve[StartRadius] == math.inf.
An absent key yields None (falsy), 0.0 is falsy, math.inf compares equal
to math.inf. -/
def isFalsyOrInf : RadiusVal → Bool
  | .absent => true
  | .num r => r == 0
  | .inf => true

/-- A Curve Record: the curve dictionary of the tracker, with the fields the
embedded code paths read or compare. -/
structure CurveRec where
  ty : String
  pi : PVec
  start : PVec
  endPt : PVec
  startRadius : RadiusVal
  endRadius : RadiusVal
  radius : ℚ
  tangent : ℚ
  tanShort : ℚ
  tanLong : ℚ
  bearingIn : ℚ
  bearingOut : ℚ
deriving DecidableEq, Inhabited

/-- The three PI control nodes of one CurveTracker (pi_nodes[0..2].get()). -/
structure PiNodes where
  start : PVec
  pi : PVec
  endPt : PVec
deriving DecidableEq, Inhabited

/-- Which radius key is passed as the known parameter to the spiral solver. -/
inductive RKey where
  | startR
  | endR
deriving DecidableEq, Inhabited

/-- The dictionary handed to spiral.solve_unk_length: PI, Start, End and one
radius entry under the chosen key. -/
structure SpiralInput where
  pi : PVec
  start : PVec
  endPt : PVec
  key : RKey
  rad : RadiusVal
deriving DecidableEq, Inhabited

/-- Lines 274-316 of curve_tracker.py (_generate_spiral before the solver
call): choose the known radius key and build the solver input.  In the
EndRadius branch the code replaces the start point with
pi - (pi - start) * (dist(start, pi) / 2) when start.is_end_node holds; in
the StartRadius branch it first rebinds start to curve[Start] and replaces
the end point with pi + (end - pi) * (dist(end, pi) / 2) when that rebound
start has is_end_node set. -/
def spiralSolveInput (dist : PVec → PVec → ℚ) (curve : CurveRec)
    (nodes : PiNodes) : SpiralInput :=
  let s0 := nodes.start
  let p := nodes.pi
  let e0 := nodes.endPt
  if isFalsyOrInf curve.startRadius then
    let e := curve.endPt
    let s := if s0.is_end_node then
        vsub p (vmul (vsub p s0) (dist s0 p / 2))
      else s0
    ⟨p, s, e, .endR, curve.endRadius⟩
  else
    let s := curve.start
    let e := if s.is_end_node then
        vadd p (vmul (vsub e0 p) (dist e0 p / 2))
      else e0
    ⟨p, s, e, .startR, curve.startRadius⟩

/-- CurveTracker._generate_spiral: solve, then keep the previous record when
the result has TanShort <= 0 or TanLong <= 0. -/
def generate_spiral (dist : PVec → PVec → ℚ) (solve : SpiralInput → CurveRec)
    (curve : CurveRec) (nodes : PiNodes) : CurveRec :=
  let res := solve (spiralSolveInput dist curve nodes)
  if res.tanShort ≤ 0 ∨ res.tanLong ≤ 0 then curve else res

/-- The dictionary handed to arc.get_parameters. -/
structure ArcInput where
  bearingIn : ℚ
  bearingOut : ℚ
  pi : PVec
  radius : ℚ
deriving DecidableEq, Inhabited

/-- CurveTracker._generate_arc: bearings from the PI nodes, radius from the
current record, solved by the external arc kernel. -/
def generate_arc (bear : PVec → ℚ) (arcParams : ArcInput → CurveRec)
    (curve : CurveRec) (nodes : PiNodes) : CurveRec :=
  arcParams ⟨bear (vsub nodes.pi nodes.start), bear (vsub nodes.endPt nodes.pi),
    nodes.pi, curve.radius⟩

/-- CurveTracker.update restricted to the Curve Record it installs:
spiral records rebuild through _generate_spiral, everything else through
_generate_arc. -/
def updateCurve (dist : PVec → PVec → ℚ) (solve : SpiralInput → CurveRec)
    (bear : PVec → ℚ) (arcParams : ArcInput → CurveRec)
    (curve : CurveRec) (nodes : PiNodes) : CurveRec :=
  if curve.ty == "Spiral" then generate_spiral dist solve curve nodes
  else generate_arc bear arcParams curve nodes

/-- C1: if the spiral solve invoked during rebuild returns a result with
tan_short <= 0 or tan_long <= 0, the Curve Record installed by update equals,
field for field, the record held before; the infeasible result is never
installed. -/
theorem spiral_infeasible_keeps_record (dist : PVec → PVec → ℚ)
    (solve : SpiralInput → CurveRec) (bear : PVec → ℚ)
    (arcParams : ArcInput → CurveRec) (curve : CurveRec) (nodes : PiNodes)
    (hty : curve.ty = "Spiral")
    (h : (solve (spiralSolveInput dist curve nodes)).tanShort ≤ 0 ∨
         (solve (spiralSolveInput dist curve nodes)).tanLong ≤ 0) :
    updateCurve dist solve bear arcParams curve nodes = curve := by
  simp only [updateCurve, hty, beq_self_eq_true, if_true, generate_spiral]
  rw [if_pos h]

/-- Constant distance function used for concrete instantiations. -/
def dist0 : PVec → PVec → ℚ := fun _ _ => 1

/-- A spiral solver that always reports an infeasible tangent. -/
def solveBad : SpiralInput → CurveRec := fun _ =>
  { ty := "Spiral", pi := default, start := default, endPt := default,
    startRadius := .absent, endRadius := .num 1, radius := 0, tangent := 0,
    tanShort := -1, tanLong := 1, bearingIn := 0, bearingOut := 0 }

/-- Trivial bearing function for concrete instantiations. -/
def bear0 : PVec → ℚ := fun _ => 0

/-- A concrete arc kernel for instantiations. -/
def arcParams0 : ArcInput → CurveRec := fun i =>
  { ty := "Arc", pi := i.pi, start := default, endPt := default,
    startRadius := .absent, endRadius := .absent, radius := i.radius,
    tangent := 5, tanShort := 0, tanLong := 0, bearingIn := i.bearingIn,
    bearingOut := i.bearingOut }

/-- A concrete spiral Curve Record. -/
def curve0 : CurveRec :=
  { ty := "Spiral", pi := ⟨100, 0, 0, false⟩, start := ⟨0, 0, 0, false⟩,
    endPt := ⟨150, 50, 0, false⟩, startRadius := .absent,
    endRadius := .num 300, radius := 0, tangent := 0, tanShort := 2,
    tanLong := 3, bearingIn := 0, bearingOut := 0 }

/-- Concrete PI nodes, none of them flagged as chain end nodes. -/
def nodes0 : PiNodes :=
  ⟨⟨0, 0, 0, false⟩, ⟨100, 0, 0, false⟩, ⟨200, 0, 0, false⟩⟩

theorem spiral_infeasible_keeps_record_witness :
    curve0.ty = "Spiral" ∧
    updateCurve dist0 solveBad bear0 arcParams0 curve0 nodes0 = curve0 :=
  ⟨rfl, spiral_infeasible_keeps_record dist0 solveBad bear0 arcParams0 curve0
    nodes0 rfl (Or.inl (by decide))⟩

/-- C9: a StartRadius equal to zero is falsy in Python, so the known
parameter is chosen as EndRadius exactly as for an absent StartRadius, and
the solver receives the identical input in both cases. -/
theorem zero_start_radius_like_absent (dist : PVec → PVec → ℚ)
    (curve : CurveRec) (nodes : PiNodes) :
    (spiralSolveInput dist { curve with startRadius := .num 0 } nodes).key
      = RKey.endR ∧
    spiralSolveInput dist { curve with startRadius := .num 0 } nodes
      = spiralSolveInput dist { curve with startRadius := .absent } nodes := by
  constructor <;> simp [spiralSolveInput, isFalsyOrInf]

/-- A spiral record with unset StartRadius whose stored points carry no end
node flag. -/
def curveNF : CurveRec :=
  { ty := "Spiral", pi := ⟨100, 0, 0, false⟩, start := ⟨0, 0, 0, false⟩,
    endPt := ⟨150, 50, 0, false⟩, startRadius := .absent,
    endRadius := .num 300, radius := 0, tangent := 0, tanShort := 2,
    tanLong := 3, bearingIn := 0, bearingOut := 0 }

/-- PI nodes whose start node is flagged as a fixed chain end node. -/
def nodesT : PiNodes :=
  ⟨⟨0, 0, 0, true⟩, ⟨100, 0, 0, false⟩, ⟨200, 0, 0, false⟩⟩

/-- A spiral record with a known StartRadius whose stored Start point carries
the end node flag. -/
def curveSR : CurveRec :=
  { ty := "Spiral", pi := ⟨100, 0, 0, false⟩, start := ⟨0, 0, 0, true⟩,
    endPt := ⟨150, 50, 0, false⟩, startRadius := .num 500,
    endRadius := .absent, radius := 0, tangent := 0, tanShort := 2,
    tanLong := 3, bearingIn := 0, bearingOut := 0 }

/-- PI nodes whose end node is flagged as a fixed chain end node. -/
def nodesE : PiNodes :=
  ⟨⟨0, 0, 0, false⟩, ⟨100, 0, 0, false⟩, ⟨200, 0, 0, true⟩⟩

/-- C2: the code replaces the start point exactly when is_end_node is set,
the opposite of the claimed condition, and in the StartRadius branch it
consults the stored Start point instead of the end node.  Concretely: with a
non end node start the solver receives the start unchanged although the
halfway replacement point differs from it; with an end node start the solver
receives a replaced start; mirror-wise, with the end node flagged fixed the
code still replaces the end point because the stored Start point carries the
flag. -/
theorem spiral_end_node_check_divergence :
    ((spiralSolveInput dist0 curveNF nodes0).start = nodes0.start ∧
      nodes0.start.is_end_node = false ∧
      vsub nodes0.pi
        (vmul (vsub nodes0.pi nodes0.start) (dist0 nodes0.start nodes0.pi / 2))
        ≠ nodes0.start) ∧
    ((spiralSolveInput dist0 curveNF nodesT).start ≠ nodesT.start ∧
      nodesT.start.is_end_node = true) ∧
    ((spiralSolveInput dist0 curveSR nodesE).endPt ≠ nodesE.endPt ∧
      nodesE.endPt.is_end_node = true) := by
  refine ⟨⟨by decide, rfl, ?_⟩, ⟨?_, rfl⟩, ⟨?_, rfl⟩⟩
  · intro h
    have hx := congrArg PVec.x h
    norm_num [vsub, vmul, dist0, nodes0] at hx
  · intro h
    have hf := congrArg PVec.is_end_node h
    simp [spiralSolveInput, curveNF, nodesT, isFalsyOrInf, vsub, vmul] at hf
  · intro h
    have hf := congrArg PVec.is_end_node h
    simp [spiralSolveInput, curveSR, nodesE, isFalsyOrInf, vadd, vsub, vmul] at hf

/-- State of one CurveTracker as read and written by the two input event
handlers: the selection states of the node trackers, the aggregate state
string, and the user_dragging flag. -/
structure TrackerState where
  nodeStates : List String
  state : String
  user_dragging : Bool
deriving DecidableEq, Inhabited

/-- The mouse condition both handlers consult after MouseState.update: the
dragging flag of button 1 (button held down with motion). -/
structure EventArg where
  button1_dragging : Bool
deriving DecidableEq, Inhabited

/-- Lines 160-167 of curve_tracker.py: aggregate selection state from the
node tracker states. -/
def aggregateState (states : List String) : String :=
  if states.all (fun v => v == "SELECTED") then "SELECTED"
  else if states.any (fun v => v == "SELECTED") then "PARTIAL"
  else "UNSELECTED"

/-- CurveTracker.button_event: recompute the aggregate state, then clear
user_dragging when the button is no longer dragging (end_drag itself has an
empty body). -/
def buttonEvent (s : TrackerState) (arg : EventArg) : TrackerState :=
  let s1 : TrackerState := { s with state := aggregateState s.nodeStates }
  if s1.user_dragging && !arg.button1_dragging then
    { s1 with user_dragging := false }
  else s1

/-- CurveTracker.mouse_event: when button 1 is dragging, either continue the
drag (on_drag has an empty body) or set user_dragging; selection states are
never consulted. -/
def mouseEvent (s : TrackerState) (arg : EventArg) : TrackerState :=
  if arg.button1_dragging then
    if s.user_dragging then s
    else { s with user_dragging := true }
  else s

/-- C5: after a pointer button event on a curve with its three node trackers,
the aggregate state is SELECTED exactly when all three nodes are SELECTED,
PARTIAL exactly when at least one but not all are, and UNSELECTED exactly
when none are. -/
theorem button_event_aggregation (a b c st : String) (ud : Bool)
    (arg : EventArg) :
    ((buttonEvent ⟨[a, b, c], st, ud⟩ arg).state = "SELECTED" ↔
      (a = "SELECTED" ∧ b = "SELECTED" ∧ c = "SELECTED")) ∧
    ((buttonEvent ⟨[a, b, c], st, ud⟩ arg).state = "PARTIAL" ↔
      ((a = "SELECTED" ∨ b = "SELECTED" ∨ c = "SELECTED") ∧
        ¬(a = "SELECTED" ∧ b = "SELECTED" ∧ c = "SELECTED"))) ∧
    ((buttonEvent ⟨[a, b, c], st, ud⟩ arg).state = "UNSELECTED" ↔
      ¬(a = "SELECTED" ∨ b = "SELECTED" ∨ c = "SELECTED")) := by
  have hstate : (buttonEvent ⟨[a, b, c], st, ud⟩ arg).state
      = aggregateState [a, b, c] := by
    simp only [buttonEvent]
    by_cases h : (ud && !arg.button1_dragging) = true <;> simp [h]
  rw [hstate]
  by_cases ha : a = "SELECTED" <;> by_cases hb : b = "SELECTED" <;>
    by_cases hc : c = "SELECTED" <;>
    simp [aggregateState, ha, hb, hc]

/-- A tracker state with no selected node and no drag in progress. -/
def unselIdle : TrackerState :=
  ⟨["UNSELECTED", "UNSELECTED", "UNSELECTED"], "UNSELECTED", false⟩

/-- C6 counterexample: from an idle state in which no node tracker is
SELECTED, a motion event with button 1 dragging still sets user_dragging;
the transition does not require a selected control point. -/
theorem mouse_event_drag_without_selection :
    unselIdle.user_dragging = false ∧
    (∀ v ∈ unselIdle.nodeStates, v ≠ "SELECTED") ∧
    (mouseEvent unselIdle ⟨true⟩).user_dragging = true := by
  refine ⟨rfl, by decide, rfl⟩

/-- C6 amended: after a pointer motion event the user_dragging flag equals
the button 1 dragging flag disjoined with the previous user_dragging flag;
node selection states play no part. -/
theorem drag_transition_tracks_button (s : TrackerState) (arg : EventArg) :
    (mouseEvent s arg).user_dragging = (arg.button1_dragging || s.user_dragging) := by
  simp only [mouseEvent]
  by_cases h : arg.button1_dragging = true <;>
    by_cases h2 : s.user_dragging = true <;> simp [h, h2]

/-- A plain coordinate triple as stored in the SoCoordinate3 node. -/
def Coord3 := ℚ × ℚ × ℚ
deriving DecidableEq, Inhabited

/-- The coordinates argument of Geometry.set_coordinates: None, a single
tuple, or a list of tuples. -/
inductive CoordArg where
  | none
  | single (p : Coord3)
  | list (ps : List Coord3)
deriving DecidableEq, Inhabited

/-- Python truthiness of the coordinates argument: None and the empty list
are falsy, a tuple and a non empty list are truthy. -/
def coordArgFalsy : CoordArg → Bool
  | .none => true
  | .single _ => false
  | .list ps => ps.isEmpty

/-- The list form after the isinstance check wraps a lone tuple. -/
def coordArgToList : CoordArg → List Coord3
  | .none => []
  | .single p => [p]
  | .list ps => ps

/-- State of a Geometry object: the points of its coordinate node, the
dispatched update notifications, and the do_publish flag inherited from
Signal. -/
structure GeoState where
  points : List Coord3
  notifications : List (List Coord3)
  do_publish : Bool
deriving DecidableEq, Inhabited

/-- Geometry.set_coordinates of trackers2/core/geometry.py: return untouched
on a falsy argument, otherwise store the coordinates and dispatch an update
notification when both do_notify and do_publish hold. -/
def set_coordinates (s : GeoState) (coordinates : CoordArg)
    (do_notify : Bool) : GeoState :=
  if coordArgFalsy coordinates then s
  else
    let lst := coordArgToList coordinates
    { s with
      points := lst,
      notifications :=
        if do_notify && s.do_publish then s.notifications ++ [lst]
        else s.notifications }

/-- C10: calling set_coordinates with None or with an empty list leaves the
whole geometry state, in particular the coordinate points and the
notification log, unchanged, for every prior state and either do_notify
flag. -/
theorem set_coordinates_empty_noop (s : GeoState) (do_notify : Bool) :
    set_coordinates s CoordArg.none do_notify = s ∧
    set_coordinates s (CoordArg.list []) do_notify = s := by
  constructor <;> simp [set_coordinates, coordArgFalsy, List.isEmpty]

/-- SwapEdge.SwapEdge of EditSurface.py once two faces have been picked:
copy the surface mesh, attempt the edge swap on the copy, print a message
when the swap raises, and assign the copy back to the surface.  The external
Mesh.swapEdge call is modelled as an Option valued function on the mesh
content; a raising call leaves the copy unmodified.  The returned Bool
records whether the cannot-be-swapped message was printed. -/
def swapEdgeOp {M : Type} (swapEdge : M → Nat → Nat → Option M)
    (i1 i2 : Nat) (mesh : M) : M × Bool :=
  let copyMesh := mesh
  match swapEdge copyMesh i1 i2 with
  | some m => (m, false)
  | Option.none => (copyMesh, true)

/-- C8: when the underlying swapEdge call fails, the mesh assigned back to
the surface equals the original mesh content and the failure message is
reported; the operation is a no-op on the mesh. -/
theorem swap_edge_failure_noop {M : Type} (swapEdge : M → Nat → Nat → Option M)
    (i1 i2 : Nat) (mesh : M) (h : swapEdge mesh i1 i2 = Option.none) :
    swapEdgeOp swapEdge i1 i2 mesh = (mesh, true) := by
  simp [swapEdgeOp, h]

theorem swap_edge_failure_noop_witness :
    (fun (_ : Nat) (_ _ : Nat) => (Option.none : Option Nat)) 7 0 1 = Option.none ∧
    swapEdgeOp (fun (_ : Nat) (_ _ : Nat) => (Option.none : Option Nat)) 0 1 7
      = (7, true) :=
  ⟨rfl, swap_edge_failure_noop (fun _ _ _ => Option.none) 0 1 7 rfl⟩

/-- Editing state touched by the commented-out drag lifecycle of
curve_tracker.py: the list of Curve Records (self.curves) and the saved
point lists of the tangent and curve wire trackers (what start_drag stores
in drag.tracker_state and what the rollback branch of end_drag writes
back). -/
structure EditState where
  curves : List CurveRec
  wires : List (List PVec)
deriving DecidableEq, Inhabited

/-- start_drag as structured in the commented-out source: the Drag
Transaction snapshot holds the wire tracker point lists only; the Curve
Records are not snapshotted. -/
def startDragSnapshot (s : EditState) : List (List PVec) := s.wires

/-- The rollback branch of the commented-out end_drag: every tangent and
curve wire tracker is updated from drag.tracker_state; self.curves is left
as the drag solves wrote it. -/
def endDragInvalid (snapshot : List (List PVec)) (s : EditState) : EditState :=
  { s with wires := snapshot }

/-- Pre-drag editing state for the rollback scenario. -/
def preDragState : EditState :=
  { curves := [curve0], wires := [[⟨0, 0, 0, false⟩]] }

/-- The same editing state after drag solves replaced the Curve Record and
moved the wire points. -/
def draggedState : EditState :=
  { curves := [curveSR], wires := [[⟨5, 5, 0, false⟩]] }

/-- C4: rollback is not exact on the Curve Records.  In a drag that mutated
curves[0] and is rolled back, end_drag restores the wire tracker points from
the Drag Transaction snapshot but the Curve Record list keeps the dragged
value, so the state after rollback differs from the state at Drag
Transaction creation. -/
theorem rollback_missing_curve_restore :
    (endDragInvalid (startDragSnapshot preDragState) draggedState).wires
      = preDragState.wires ∧
    (endDragInvalid (startDragSnapshot preDragState) draggedState).curves
      ≠ preDragState.curves ∧
    endDragInvalid (startDragSnapshot preDragState) draggedState
      ≠ preDragState := by
  refine ⟨rfl, ?_, ?_⟩
  · intro h
    have := congrArg (fun l => (l.headD default).startRadius) h
    simp [endDragInvalid, startDragSnapshot, draggedState, preDragState,
      curveSR, curve0] at this
  · intro h
    have := congrArg (fun s => (s.curves.headD default).startRadius) h
    simp [endDragInvalid, startDragSnapshot, draggedState, preDragState,
      curveSR, curve0] at this

/-- Coin style assigned to a curve tracker by the validator: CoinStyle.DEFAULT
or CoinStyle.ERROR. -/
inductive Style where
  | DEFAULT
  | ERROR
deriving DecidableEq, Inhabited

/-- Outgoing tangent length of the first curve of a pair: the first ordered
tangent for a spiral, the Tangent entry for an arc. -/
def outgoingTangent (ordTans : CurveRec → ℚ × ℚ) (c : CurveRec) : ℚ :=
  if c.ty == "Spiral" then (ordTans c).1 else c.tangent

/-- Incoming tangent length of the second curve of a pair: the second ordered
tangent for a spiral, the Tangent entry for an arc. -/
def incomingTangent (ordTans : CurveRec → ℚ × ℚ) (c : CurveRec) : ℚ :=
  if c.ty == "Spiral" then (ordTans c).2 else c.tangent

/-- The comparison of the pairwise validation loop: the two tangent lengths
of adjacent curves i and i+1 exceed the distance between their PIs. -/
def pairViolates (dist : PVec → PVec → ℚ) (ordTans : CurveRec → ℚ × ℚ)
    (cs : List CurveRec) (i : Nat) : Bool :=
  decide (outgoingTangent ordTans (cs.getD i default)
      + incomingTangent ordTans (cs.getD (i + 1) default)
    > dist (cs.getD i default).pi (cs.getD (i + 1) default).pi)

/-- One iteration of the pairwise validation loop of _validate_curve: when
the tangent sum of pair i exceeds the PI distance, set the styles of curves
i+1 and i to ERROR, otherwise leave the styles untouched. -/
def pairStep (dist : PVec → PVec → ℚ) (ordTans : CurveRec → ℚ × ℚ)
    (cs : List CurveRec) (styles : List Style) (i : Nat) : List Style :=
  if pairViolates dist ordTans cs i then
    (styles.set (i + 1) .ERROR).set i .ERROR
  else styles

/-- The full pairwise validation loop over indices 0 .. len(curves)-2. -/
def pairwisePhase (dist : PVec → PVec → ℚ) (ordTans : CurveRec → ℚ × ℚ)
    (cs : List CurveRec) (styles : List Style) : List Style :=
  (List.range (cs.length - 1)).foldl (pairStep dist ordTans cs) styles

/-- The list extension at the head of _validate_curve: prepend the preceding
curve when the first dragged index is positive, else append the following
curve when the last dragged index is not the last chain index. -/
def extendStep (dragIdx : List Nat) (selfCurves curves : List CurveRec) :
    List Nat × List CurveRec :=
  let h := dragIdx.headD 0
  let l := dragIdx.getLastD 0
  if 0 < h then
    ((h - 1) :: dragIdx, selfCurves.getD (h - 1) default :: curves)
  else if (l : Int) < (selfCurves.length : Int) - 1 then
    (dragIdx ++ [l + 1], curves ++ [selfCurves.getD (l + 1) default])
  else (dragIdx, curves)

/-- The tangent used by the endpoint check: the first ordered tangent at the
chain start, the second at the chain end, the Tangent entry for arcs. -/
def endpointTangent (ordTans : CurveRec → ℚ × ℚ) (isFirst : Bool)
    (c : CurveRec) : ℚ :=
  if c.ty == "Spiral" then
    (if isFirst then (ordTans c).1 else (ordTans c).2)
  else c.tangent

/-- One endpoint check of _validate_curve: for the first (index 0) or last
(index -1) curve, compare its endpoint tangent against the distance from its
PI to the corresponding drag PI anchor and set ERROR when it does not fit;
a style already set to ERROR is left alone. -/
def endpointCheck (dist : PVec → PVec → ℚ) (ordTans : CurveRec → ℚ × ℚ)
    (cs : List CurveRec) (dragPi : List PVec) (isFirst : Bool)
    (styles : List Style) : List Style :=
  let j := if isFirst then 0 else cs.length - 1
  let c := cs.getD j default
  let p := if isFirst then dragPi.getD 0 default
    else dragPi.getD (dragPi.length - 1) default
  if styles.getD j .DEFAULT ≠ .ERROR ∧ endpointTangent ordTans isFirst c > dist c.pi p
  then styles.set j .ERROR
  else styles

/-- The style list computed by _validate_curve after the extension step, the
pairwise loop and the two conditional endpoint checks. -/
def validStyles (dist : PVec → PVec → ℚ) (ordTans : CurveRec → ℚ × ℚ)
    (dragIdx : List Nat) (selfCurves : List CurveRec) (dragPi : List PVec)
    (curves : List CurveRec) : List Style :=
  let ec := extendStep dragIdx selfCurves curves
  let styles0 := List.replicate ec.2.length Style.DEFAULT
  let styles1 := pairwisePhase dist ordTans ec.2 styles0
  let styles2 :=
    if ec.1.headD 0 == 0 then endpointCheck dist ordTans ec.2 dragPi true styles1
    else styles1
  if (ec.1.getLastD 0 : Int) == (selfCurves.length : Int) - 1 then
    endpointCheck dist ordTans ec.2 dragPi false styles2
  else styles2

/-- CurveTracker._validate_curve as structured in the source: an empty drag
index list validates trivially and assigns no styles; otherwise the styles
are computed by validStyles and is_valid holds iff no style is ERROR. -/
def validateCurve (dist : PVec → PVec → ℚ) (ordTans : CurveRec → ℚ × ℚ)
    (dragIdx : List Nat) (selfCurves : List CurveRec) (dragPi : List PVec)
    (curves : List CurveRec) : Option (List Style) × Bool :=
  if dragIdx.isEmpty then (Option.none, true)
  else
    let st := validStyles dist ordTans dragIdx selfCurves dragPi curves
    (some st, st.all (fun v => v == Style.DEFAULT))

/-- Setting any position to ERROR keeps an existing ERROR entry. -/
theorem set_error_keeps (styles : List Style) (k j : Nat)
    (h : styles[j]? = some Style.ERROR) :
    (styles.set k Style.ERROR)[j]? = some Style.ERROR := by
  by_cases hkj : k = j
  · subst hkj
    have hlt : k < styles.length := by
      by_contra hge
      rw [List.getElem?_eq_none (Nat.le_of_not_lt hge)] at h
      exact Option.noConfusion h
    rw [List.getElem?_set_self hlt]
  · rw [List.getElem?_set_ne hkj]
    exact h

/-- A pairStep leaves an ERROR entry in place. -/
theorem pairStep_preserves_error (dist : PVec → PVec → ℚ)
    (ordTans : CurveRec → ℚ × ℚ) (cs : List CurveRec) (styles : List Style)
    (i j : Nat) (h : styles[j]? = some Style.ERROR) :
    (pairStep dist ordTans cs styles i)[j]? = some Style.ERROR := by
  unfold pairStep
  split
  · exact set_error_keeps _ i j (set_error_keeps _ (i + 1) j h)
  · exact h

/-- The whole pairwise fold leaves an ERROR entry in place. -/
theorem foldl_pairStep_preserves_error (dist : PVec → PVec → ℚ)
    (ordTans : CurveRec → ℚ × ℚ) (cs : List CurveRec) (idxs : List Nat)
    (styles : List Style) (j : Nat) (h : styles[j]? = some Style.ERROR) :
    (idxs.foldl (pairStep dist ordTans cs) styles)[j]? = some Style.ERROR := by
  induction idxs generalizing styles with
  | nil => exact h
  | cons a t ih =>
    exact ih _ (pairStep_preserves_error dist ordTans cs styles a j h)

/-- A pairStep keeps the length of the style list. -/
theorem pairStep_length (dist : PVec → PVec → ℚ) (ordTans : CurveRec → ℚ × ℚ)
    (cs : List CurveRec) (styles : List Style) (i : Nat) :
    (pairStep dist ordTans cs styles i).length = styles.length := by
  unfold pairStep
  split <;> simp

/-- The pairwise fold keeps the length of the style list. -/
theorem foldl_pairStep_length (dist : PVec → PVec → ℚ)
    (ordTans : CurveRec → ℚ × ℚ) (cs : List CurveRec) (idxs : List Nat)
    (styles : List Style) :
    (idxs.foldl (pairStep dist ordTans cs) styles).length = styles.length := by
  induction idxs generalizing styles with
  | nil => rfl
  | cons a t ih => rw [List.foldl_cons, ih, pairStep_length]

/-- Once index i with a violating pair is processed, both entries i and i+1
of the final style list of the fold are ERROR. -/
theorem foldl_pairStep_marks (dist : PVec → PVec → ℚ)
    (ordTans : CurveRec → ℚ × ℚ) (cs : List CurveRec) (idxs : List Nat)
    (styles : List Style) (i : Nat) (hmem : i ∈ idxs)
    (hlen : styles.length = cs.length) (hi : i + 1 < cs.length)
    (hviol : pairViolates dist ordTans cs i = true) :
    (idxs.foldl (pairStep dist ordTans cs) styles)[i]? = some Style.ERROR ∧
    (idxs.foldl (pairStep dist ordTans cs) styles)[i + 1]? = some Style.ERROR := by
  induction idxs generalizing styles with
  | nil => cases hmem
  | cons a t ih =>
    rw [List.foldl_cons]
    rcases List.mem_cons.mp hmem with hai | hmt
    · subst hai
      have hlt1 : i < (styles.set (i + 1) Style.ERROR).length := by
        rw [List.length_set, hlen]
        omega
      have hlt2 : i + 1 < styles.length := by
        rw [hlen]
        exact hi
      have hne : i ≠ i + 1 := by omega
      have hstep1 : (pairStep dist ordTans cs styles i)[i]? = some Style.ERROR := by
        unfold pairStep
        rw [if_pos hviol, List.getElem?_set_self hlt1]
      have hstep2 : (pairStep dist ordTans cs styles i)[i + 1]?
          = some Style.ERROR := by
        unfold pairStep
        rw [if_pos hviol, List.getElem?_set_ne hne, List.getElem?_set_self hlt2]
      exact ⟨foldl_pairStep_preserves_error dist ordTans cs t _ i hstep1,
        foldl_pairStep_preserves_error dist ordTans cs t _ (i + 1) hstep2⟩
    · exact ih _ hmt (by rw [pairStep_length, hlen])

/-- An endpoint check leaves an ERROR entry in place. -/
theorem endpointCheck_preserves_error (dist : PVec → PVec → ℚ)
    (ordTans : CurveRec → ℚ × ℚ) (cs : List CurveRec) (dragPi : List PVec)
    (isFirst : Bool) (styles : List Style) (j : Nat)
    (h : styles[j]? = some Style.ERROR) :
    (endpointCheck dist ordTans cs dragPi isFirst styles)[j]? = some Style.ERROR := by
  simp only [endpointCheck]
  split <;> split <;> first
    | exact set_error_keeps _ _ j h
    | exact h

/-- The pairwise loop marks both members of a violating pair. -/
theorem pairwisePhase_marks (dist : PVec → PVec → ℚ)
    (ordTans : CurveRec → ℚ × ℚ) (cs : List CurveRec) (styles : List Style)
    (i : Nat) (hlen : styles.length = cs.length) (hi : i + 1 < cs.length)
    (hv : pairViolates dist ordTans cs i = true) :
    (pairwisePhase dist ordTans cs styles)[i]? = some Style.ERROR ∧
    (pairwisePhase dist ordTans cs styles)[i + 1]? = some Style.ERROR := by
  unfold pairwisePhase
  exact foldl_pairStep_marks dist ordTans cs _ styles i
    (List.mem_range.mpr (by omega)) hlen hi hv

/-- An ERROR produced by the pairwise loop survives to the final style list
of the validator. -/
theorem validStyles_keeps_pairwise_error (dist : PVec → PVec → ℚ)
    (ordTans : CurveRec → ℚ × ℚ) (dragIdx : List Nat)
    (selfCurves : List CurveRec) (dragPi : List PVec) (curves : List CurveRec)
    (j : Nat)
    (h : (pairwisePhase dist ordTans (extendStep dragIdx selfCurves curves).2
        (List.replicate (extendStep dragIdx selfCurves curves).2.length
          Style.DEFAULT))[j]? = some Style.ERROR) :
    (validStyles dist ordTans dragIdx selfCurves dragPi curves)[j]?
      = some Style.ERROR := by
  simp only [validStyles]
  split
  · split
    · exact endpointCheck_preserves_error _ _ _ _ _ _ j
        (endpointCheck_preserves_error _ _ _ _ _ _ j h)
    · exact endpointCheck_preserves_error _ _ _ _ _ _ j h
  · split
    · exact endpointCheck_preserves_error _ _ _ _ _ _ j h
    · exact h

/-- C3: for every adjacent pair of the extended curve list examined by the
validator, if the tangent sum exceeds the PI distance then both pair members
come out of the validator marked ERROR, and if it does not exceed it then
the pairwise iteration for that pair leaves every style list untouched;
moreover the validator output styles are exactly validStyles. -/
theorem validator_pair_marking (dist : PVec → PVec → ℚ)
    (ordTans : CurveRec → ℚ × ℚ) (dragIdx : List Nat)
    (selfCurves : List CurveRec) (dragPi : List PVec) (curves : List CurveRec)
    (i : Nat) (hne : dragIdx ≠ [])
    (hi : i + 1 < ((extendStep dragIdx selfCurves curves).2).length) :
    (validateCurve dist ordTans dragIdx selfCurves dragPi curves).1
      = some (validStyles dist ordTans dragIdx selfCurves dragPi curves) ∧
    (pairViolates dist ordTans (extendStep dragIdx selfCurves curves).2 i = true →
      (validStyles dist ordTans dragIdx selfCurves dragPi curves)[i]?
        = some Style.ERROR ∧
      (validStyles dist ordTans dragIdx selfCurves dragPi curves)[i + 1]?
        = some Style.ERROR) ∧
    (pairViolates dist ordTans (extendStep dragIdx selfCurves curves).2 i = false →
      ∀ styles, pairStep dist ordTans (extendStep dragIdx selfCurves curves).2
        styles i = styles) := by
  refine ⟨?_, ?_, ?_⟩
  · simp [validateCurve, List.isEmpty_iff, hne]
  · intro hv
    have hbase := pairwisePhase_marks dist ordTans
      (extendStep dragIdx selfCurves curves).2
      (List.replicate (extendStep dragIdx selfCurves curves).2.length
        Style.DEFAULT) i (by simp) hi hv
    exact ⟨validStyles_keeps_pairwise_error dist ordTans dragIdx selfCurves
        dragPi curves i hbase.1,
      validStyles_keeps_pairwise_error dist ordTans dragIdx selfCurves
        dragPi curves (i + 1) hbase.2⟩
  · intro hv styles
    unfold pairStep
    rw [if_neg]
    simp [hv]

/-- Ordered tangents function for concrete instantiations. -/
def ordTans0 : CurveRec → ℚ × ℚ := fun c => (c.tanLong, c.tanShort)

/-- First arc of the concrete validator scenario, tangent length 60. -/
def arcA : CurveRec :=
  { ty := "Arc", pi := ⟨0, 0, 0, false⟩, start := ⟨0, 0, 0, false⟩,
    endPt := ⟨0, 0, 0, false⟩, startRadius := .absent, endRadius := .absent,
    radius := 50, tangent := 60, tanShort := 0, tanLong := 0,
    bearingIn := 0, bearingOut := 0 }

/-- Second arc of the concrete validator scenario, tangent length 60. -/
def arcB : CurveRec :=
  { ty := "Arc", pi := ⟨1, 0, 0, false⟩, start := ⟨0, 0, 0, false⟩,
    endPt := ⟨0, 0, 0, false⟩, startRadius := .absent, endRadius := .absent,
    radius := 50, tangent := 60, tanShort := 0, tanLong := 0,
    bearingIn := 0, bearingOut := 0 }

theorem validator_pair_marking_witness :
    ([0] : List Nat) ≠ [] ∧
    0 + 1 < ((extendStep [0] [arcA, arcB] [arcA]).2).length ∧
    ((validateCurve dist0 ordTans0 [0] [arcA, arcB] [⟨0, 0, 0, false⟩] [arcA]).1
        = some (validStyles dist0 ordTans0 [0] [arcA, arcB]
            [⟨0, 0, 0, false⟩] [arcA]) ∧
      (pairViolates dist0 ordTans0 (extendStep [0] [arcA, arcB] [arcA]).2 0 = true →
        (validStyles dist0 ordTans0 [0] [arcA, arcB] [⟨0, 0, 0, false⟩] [arcA])[0]?
          = some Style.ERROR ∧
        (validStyles dist0 ordTans0 [0] [arcA, arcB] [⟨0, 0, 0, false⟩] [arcA])[0 + 1]?
          = some Style.ERROR) ∧
      (pairViolates dist0 ordTans0 (extendStep [0] [arcA, arcB] [arcA]).2 0 = false →
        ∀ styles, pairStep dist0 ordTans0 (extendStep [0] [arcA, arcB] [arcA]).2
          styles 0 = styles)) :=
  ⟨by decide, by decide,
    validator_pair_marking dist0 ordTans0 [0] [arcA, arcB]
      [⟨0, 0, 0, false⟩] [arcA] 0 (by decide) (by decide)⟩

/-- The spiral solver input is stable under a successful rebuild: feeding the
solved record back through _generate_spiral reconstructs the same solver
input, provided the solver preserves the fields it was given (Start, End,
the known radius entry) and reports the unknown StartRadius as unset or
infinite in the EndRadius case. -/
theorem spiralSolveInput_stable (dist : PVec → PVec → ℚ)
    (solve : SpiralInput → CurveRec) (curve : CurveRec) (nodes : PiNodes)
    (hSolveStart : ∀ inp, (solve inp).start = inp.start)
    (hSolveEnd : ∀ inp, (solve inp).endPt = inp.endPt)
    (hSolveSRend : ∀ inp, inp.key = RKey.endR →
      isFalsyOrInf (solve inp).startRadius = true)
    (hSolveSRstart : ∀ inp, inp.key = RKey.startR →
      (solve inp).startRadius = inp.rad)
    (hSolveERend : ∀ inp, inp.key = RKey.endR →
      (solve inp).endRadius = inp.rad) :
    spiralSolveInput dist (solve (spiralSolveInput dist curve nodes)) nodes
      = spiralSolveInput dist curve nodes := by
  set q := spiralSolveInput dist curve nodes with hq
  by_cases hsr : isFalsyOrInf curve.startRadius = true
  · have hinp : q = ⟨nodes.pi,
        if nodes.start.is_end_node then
          vsub nodes.pi (vmul (vsub nodes.pi nodes.start)
            (dist nodes.start nodes.pi / 2))
        else nodes.start,
        curve.endPt, .endR, curve.endRadius⟩ := by
      rw [hq]
      simp [spiralSolveInput, hsr]
    have hk : q.key = RKey.endR := by rw [hinp]
    have h1 : isFalsyOrInf (solve q).startRadius = true := hSolveSRend _ hk
    have hE : (solve q).endPt = curve.endPt := by
      rw [hSolveEnd q, hinp]
    have hR : (solve q).endRadius = curve.endRadius := by
      rw [hSolveERend q hk, hinp]
    calc spiralSolveInput dist (solve q) nodes
        = ⟨nodes.pi,
            if nodes.start.is_end_node then
              vsub nodes.pi (vmul (vsub nodes.pi nodes.start)
                (dist nodes.start nodes.pi / 2))
            else nodes.start,
            (solve q).endPt, .endR, (solve q).endRadius⟩ := by
          simp [spiralSolveInput, h1]
      _ = q := by rw [hE, hR, ← hinp]
  · have hsr0 : isFalsyOrInf curve.startRadius = false := by
      revert hsr
      cases isFalsyOrInf curve.startRadius <;> simp
    have hinp : q = ⟨nodes.pi, curve.start,
        if curve.start.is_end_node then
          vadd nodes.pi (vmul (vsub nodes.endPt nodes.pi)
            (dist nodes.endPt nodes.pi / 2))
        else nodes.endPt,
        .startR, curve.startRadius⟩ := by
      rw [hq]
      simp [spiralSolveInput, hsr0]
    have hk : q.key = RKey.startR := by rw [hinp]
    have hSR : (solve q).startRadius = curve.startRadius := by
      rw [hSolveSRstart q hk, hinp]
    have h1 : isFalsyOrInf (solve q).startRadius = false := by
      rw [hSR]
      exact hsr0
    have hS : (solve q).start = curve.start := by
      rw [hSolveStart q, hinp]
    calc spiralSolveInput dist (solve q) nodes
        = ⟨nodes.pi, (solve q).start,
            if (solve q).start.is_end_node then
              vadd nodes.pi (vmul (vsub nodes.endPt nodes.pi)
                (dist nodes.endPt nodes.pi / 2))
            else nodes.endPt,
            .startR, (solve q).startRadius⟩ := by
          simp [spiralSolveInput, h1]
      _ = q := by rw [hS, hSR, ← hinp]

/-- C7: rebuilding twice with unchanged PI node positions yields the same
Curve Record as rebuilding once, for the arc variant and for the spiral
variant with either known radius, assuming the external kernel contract:
the solvers are pure functions, the spiral solver hands back the Start and
End points and the known radius entry it was given, marks its type Spiral,
and leaves the unknown StartRadius unset or infinite in the EndRadius case;
the arc solver marks its type Arc and hands back the Radius it was given. -/
theorem rebuild_idempotent (dist : PVec → PVec → ℚ)
    (solve : SpiralInput → CurveRec) (bear : PVec → ℚ)
    (arcParams : ArcInput → CurveRec) (curve : CurveRec) (nodes : PiNodes)
    (hSolveTy : ∀ inp, (solve inp).ty = "Spiral")
    (hSolveStart : ∀ inp, (solve inp).start = inp.start)
    (hSolveEnd : ∀ inp, (solve inp).endPt = inp.endPt)
    (hSolveSRend : ∀ inp, inp.key = RKey.endR →
      isFalsyOrInf (solve inp).startRadius = true)
    (hSolveSRstart : ∀ inp, inp.key = RKey.startR →
      (solve inp).startRadius = inp.rad)
    (hSolveERend : ∀ inp, inp.key = RKey.endR →
      (solve inp).endRadius = inp.rad)
    (hArcTy : ∀ inp, (arcParams inp).ty = "Arc")
    (hArcRad : ∀ inp, (arcParams inp).radius = inp.radius) :
    updateCurve dist solve bear arcParams
      (updateCurve dist solve bear arcParams curve nodes) nodes
      = updateCurve dist solve bear arcParams curve nodes := by
  by_cases hty : curve.ty = "Spiral"
  · have hu1 : updateCurve dist solve bear arcParams curve nodes
        = generate_spiral dist solve curve nodes := by
      simp [updateCurve, hty]
    by_cases hfe : (solve (spiralSolveInput dist curve nodes)).tanShort ≤ 0 ∨
        (solve (spiralSolveInput dist curve nodes)).tanLong ≤ 0
    · have hg : generate_spiral dist solve curve nodes = curve := by
        simp only [generate_spiral]
        rw [if_pos hfe]
      rw [hu1, hg, hu1, hg]
    · have hg : generate_spiral dist solve curve nodes
          = solve (spiralSolveInput dist curve nodes) := by
        simp only [generate_spiral]
        rw [if_neg hfe]
      have hstab := spiralSolveInput_stable dist solve curve nodes hSolveStart
        hSolveEnd hSolveSRend hSolveSRstart hSolveERend
      rw [hu1, hg]
      have hty2 : (solve (spiralSolveInput dist curve nodes)).ty = "Spiral" :=
        hSolveTy _
      simp only [updateCurve, hty2, beq_self_eq_true, if_true, generate_spiral,
        hstab]
      rw [if_neg hfe]
  · have hbe : (curve.ty == "Spiral") = false :=
      beq_eq_false_iff_ne.mpr hty
    have hu1 : updateCurve dist solve bear arcParams curve nodes
        = generate_arc bear arcParams curve nodes := by
      simp [updateCurve, hbe]
    rw [hu1]
    have hty2 : ((generate_arc bear arcParams curve nodes).ty == "Spiral")
        = false := by
      simp [generate_arc, hArcTy]
    simp only [updateCurve, hty2, Bool.false_eq_true, if_false]
    simp only [generate_arc, hArcRad]

/-- A spiral solver satisfying the kernel contract, for instantiations. -/
def solveGood : SpiralInput → CurveRec := fun inp =>
  { ty := "Spiral", pi := inp.pi, start := inp.start, endPt := inp.endPt,
    startRadius := match inp.key with | .endR => .inf | .startR => inp.rad,
    endRadius := match inp.key with | .endR => inp.rad | .startR => .num 1,
    radius := 0, tangent := 0, tanShort := 1, tanLong := 2,
    bearingIn := 0, bearingOut := 0 }

theorem rebuild_idempotent_witness :
    updateCurve dist0 solveGood bear0 arcParams0
      (updateCurve dist0 solveGood bear0 arcParams0 curve0 nodes0) nodes0
      = updateCurve dist0 solveGood bear0 arcParams0 curve0 nodes0 :=
  rebuild_idempotent dist0 solveGood bear0 arcParams0 curve0 nodes0
    (fun _ => rfl) (fun _ => rfl) (fun _ => rfl)
    (fun inp h => by simp [solveGood, h, isFalsyOrInf])
    (fun inp h => by simp [solveGood, h])
    (fun inp h => by simp [solveGood, h])
    (fun _ => rfl) (fun _ => rfl)
